import Mathlib

/-!
Shallow embedding of the interactive tooth-zone machinery of
`src/juego_dientes/cepilloParty.py` (class `TUIOTooth`, together with the one
statement of `GameScreen.handle_brush_stroke` that marks a tooth clean), and
theorems settling the specification's claims about it.

Pixel coordinates, scores, durations and timestamps are embedded as rationals
(the Python floats are used only for exact small-magnitude arithmetic in every
scenario the claims mention); cursor identifiers (`touch.uid`) as naturals.
The visual collaborator (`TuioCursorImage`) carries no state the claims refer
to, so only its presence is modelled: `brush_visualizer` is a `Bool`, `false`
standing for the Python `None`.  A method call on an absent visualizer that
the source does not guard raises `AttributeError`; fallible operations
therefore return `Option`, with `none` for the raised exception.  The `print`
calls, the dead `touch_start_time` attribute and the unused `dt` field have no
observable effect on the machine and are not modelled; the four callback hooks
are modelled as an emitted list of `Event` values.
-/

namespace CepilloParty

/-- A TUIO cursor sample: stable id plus pixel coordinates
(`touch.uid`, `touch.x`, `touch.y` in the source). -/
structure Touch where
  uid : Nat
  x : ℚ
  y : ℚ
deriving DecidableEq

/-- The notifications a `TUIOTooth` fires through its customizable callbacks:
`on_brush_start`, `on_brush_stop` and `on_brush_stroke`.  The three unused
`on_tooth_touch_*` hooks stay bound to no-op lambdas in the source and are
omitted. -/
inductive Event where
  | brushStart
  | brushStop
  | brushStroke
deriving DecidableEq

/-- `TUIOTooth._normalized_to_pixels`: converts normalized coordinates
(0.0-1.0) to pixels, scaling by the window width and height. -/
def _normalized_to_pixels (w h x_norm y_norm : ℚ) : ℚ × ℚ :=
  (x_norm * w, y_norm * h)

/-- `TUIOTooth._get_polygon_points_pixels`: the polygon vertices in pixel
coordinates. -/
def _get_polygon_points_pixels (w h : ℚ) (normalized_coords : List (ℚ × ℚ)) :
    List (ℚ × ℚ) :=
  normalized_coords.map (fun p => _normalized_to_pixels w h p.1 p.2)

/-- One iteration of the ray-casting loop body of
`TUIOTooth.point_inside_polygon`: whether edge `(p1, p2)` flips `inside` for
the query point `(x, y)`.  The Python guards `y > min(p1y, p2y)` and
`y <= max(p1y, p2y)` make the inner block unreachable when `p1y == p2y`, so
`xinters` is always freshly assigned before the stale-variable read. -/
def edgeToggle (x y : ℚ) (p1 p2 : ℚ × ℚ) : Bool :=
  decide (min p1.2 p2.2 < y) && decide (y ≤ max p1.2 p2.2) &&
    decide (x ≤ max p1.1 p2.1) &&
    (decide (p1.1 = p2.1) ||
      decide (x ≤ (y - p1.2) * (p2.1 - p1.1) / (p2.2 - p1.2) + p1.1))

/-- The ray-casting loop of `TUIOTooth.point_inside_polygon`: fold the edge
list, flipping `inside` on each crossing, threading the previous vertex `p1`. -/
def raycast (x y : ℚ) : ℚ × ℚ → List (ℚ × ℚ) → Bool → Bool
  | _, [], inside => inside
  | p1, p2 :: rest, inside =>
      raycast x y p2 rest (if edgeToggle x y p1 p2 then !inside else inside)

/-- `TUIOTooth.point_inside_polygon`: even-odd ray casting over the pixel
polygon.  The Python loop runs `n + 1` times with `p2 = polygon[i % n]`
starting from `p1 = polygon[0]`, so the processed edge sequence is the
consecutive pairs of `polygon[0] :: polygon ++ [polygon[0]]` — the degenerate
self-edge `(polygon[0], polygon[0])` followed by the closed vertex cycle.
The source indexes `polygon[0]`, so the empty polygon would raise; every
tooth in the game has four vertices and every theorem below either fixes a
concrete polygon or assumes at least three vertices, so the `[]` branch is
never exercised. -/
def point_inside_polygon (polygon : List (ℚ × ℚ)) (x y : ℚ) : Bool :=
  match polygon with
  | [] => false
  | p0 :: _ => raycast x y p0 (polygon ++ [p0]) false

/-- The mutable state of one `TUIOTooth` widget, restricted to the fields the
interaction machine reads or writes.  `pending_reset` holds the deadline of
the one-shot `Clock.schedule_once(self._reset_state, self.grace_period)`
event, `none` when no reset is scheduled; `brush_visualizer` records whether
a visualizer was passed (`True`-ness of the Python attribute). -/
structure ToothState where
  points_pixels : List (ℚ × ℚ)
  is_clean : Bool
  cursor_inside : Option Nat
  is_being_touched : Bool
  grace_period : ℚ
  pending_reset : Option ℚ
  brush_to_clean : ℤ
  brush_score : ℚ
  last_pos : ℚ × ℚ
  brush_quota : ℚ
  x_weight : ℚ
  y_weight : ℚ
  brush_visualizer : Bool
deriving DecidableEq

/-- `TUIOTooth.__init__`: the field initialization, with the polygon already
converted to pixels for a `w × h` window. -/
def initState (normalized_coords : List (ℚ × ℚ)) (w h : ℚ)
    (is_clean : Bool) (brush_visualizer : Bool) : ToothState :=
  { points_pixels := _get_polygon_points_pixels w h normalized_coords
    is_clean := is_clean
    cursor_inside := none
    is_being_touched := false
    grace_period := 3 / 10
    pending_reset := none
    brush_to_clean := 3
    brush_score := 0
    last_pos := (0, 0)
    brush_quota := 150
    x_weight := 1 / 2
    y_weight := 1 / 2
    brush_visualizer := brush_visualizer }

/-- `TUIOTooth._start_brushing`.  On an already-clean tooth it returns with no
change.  When a reset is pending it first calls
`self.brush_visualizer.remove_brush(self.cursor_inside)` WITHOUT the
`if self.brush_visualizer:` guard every other call site uses, so with no
visualizer attached this raises `AttributeError` — embedded as `none`;
otherwise it unschedules the pending reset.  It then records the cursor,
zeroes `brush_score`, captures `last_pos` and fires `on_brush_start` (the
`draw_brush` call is guarded and touches only the visualizer). -/
def _start_brushing (s : ToothState) (t : Touch) :
    Option (ToothState × List Event) :=
  if s.is_clean then
    some (s, [])
  else
    match s.pending_reset with
    | some _ =>
        if s.brush_visualizer then
          some ({ s with pending_reset := none
                         cursor_inside := some t.uid
                         is_being_touched := true
                         brush_score := 0
                         last_pos := (t.x, t.y) },
                [Event.brushStart])
        else
          none
    | none =>
        some ({ s with cursor_inside := some t.uid
                       is_being_touched := true
                       brush_score := 0
                       last_pos := (t.x, t.y) },
              [Event.brushStart])

/-- `TUIOTooth._reset_state`: clears the cursor bookkeeping and fires
`on_brush_stop`.  The `remove_brush` call here is guarded by
`if self.brush_visualizer:`, so this never raises.  Note that it does not
touch `brush_score` or `last_pos`. -/
def _reset_state (s : ToothState) : ToothState × List Event :=
  ({ s with cursor_inside := none
            is_being_touched := false
            pending_reset := none },
   [Event.brushStop])

/-- `TUIOTooth.on_touch_down`. -/
def on_touch_down (s : ToothState) (t : Touch) :
    Option (ToothState × List Event) :=
  if point_inside_polygon s.points_pixels t.x t.y then
    if s.is_clean then
      some (s, [])
    else if s.pending_reset.isSome then
      _start_brushing s t
    else if s.cursor_inside = none then
      _start_brushing s t
    else
      some (s, [])
  else
    some (s, [])

/-- `TUIOTooth.on_touch_move`.  The guarded `move_brush` call only touches the
visualizer.  `last_pos` is updated on every inside-move of the tracked cursor,
clean or not; the scoring block runs only while the tooth is dirty. -/
def on_touch_move (s : ToothState) (t : Touch) :
    Option (ToothState × List Event) :=
  let is_inside := point_inside_polygon s.points_pixels t.x t.y
  if s.cursor_inside = none ∧ is_inside then
    _start_brushing s t
  else if s.cursor_inside = some t.uid then
    if is_inside then
      if s.is_clean then
        some ({ s with last_pos := (t.x, t.y) }, [])
      else
        let delta_x := |t.x - s.last_pos.1|
        let delta_y := |t.y - s.last_pos.2|
        let weighted_distance := delta_x * s.x_weight + delta_y * s.y_weight
        let score := s.brush_score + weighted_distance
        if s.brush_quota ≤ score then
          some ({ s with brush_score := score - s.brush_quota
                         brush_to_clean := s.brush_to_clean - 1
                         last_pos := (t.x, t.y) },
                [Event.brushStroke])
        else
          some ({ s with brush_score := score
                         last_pos := (t.x, t.y) }, [])
    else
      some (_reset_state s)
  else
    some (s, [])

/-- `TUIOTooth.on_touch_up`: for any cursor other than the tracked one it
returns immediately; for the tracked cursor it schedules the one-shot
`_reset_state` at `now + grace_period`. -/
def on_touch_up (s : ToothState) (t : Touch) (now : ℚ) :
    ToothState × List Event :=
  if some t.uid ≠ s.cursor_inside then
    (s, [])
  else
    ({ s with pending_reset := some (now + s.grace_period) }, [])

/-- Modelled from the spec: the source delegates grace-deadline expiry to the
toolkit's one-shot clock (`Clock.schedule_once` / `Clock.unschedule`), whose
implementation is not part of this repository.  Following sections 4.2 and 5
of the spec, `tick now` evaluates the pending deadline: when one exists and
has elapsed it invokes the source's `_reset_state` (which clears
`pending_reset`, the field `tick` checks first), otherwise it does nothing —
so a one-shot fires at most once. -/
def tick (s : ToothState) (now : ℚ) : ToothState × List Event :=
  match s.pending_reset with
  | some deadline => if deadline ≤ now then _reset_state s else (s, [])
  | none => (s, [])

/-- The one statement of `GameScreen.handle_brush_stroke` that mutates the
tooth widget: once `brush_to_clean` has dropped to `0` (or below) the handler
sets `tooth_logic.is_clean = True`, resolving the zone. -/
def resolve_if_done (s : ToothState) : ToothState :=
  if s.brush_to_clean ≤ 0 then { s with is_clean := true } else s

/-- One externally driven step of a tooth zone: a touch-phase event, a clock
tick, or the external resolution callback. -/
inductive Input where
  | down (t : Touch)
  | move (t : Touch)
  | up (t : Touch) (now : ℚ)
  | clock (now : ℚ)
  | resolve
deriving DecidableEq

/-- Dispatch one input to the corresponding handler of the source. -/
def step (s : ToothState) : Input → Option (ToothState × List Event)
  | Input.down t => on_touch_down s t
  | Input.move t => on_touch_move s t
  | Input.up t now => some (on_touch_up s t now)
  | Input.clock now => some (tick s now)
  | Input.resolve => some (resolve_if_done s, [])

/-- The states a tooth zone constructed from `normalized_coords` over a
`w × h` window can reach under any sequence of inputs. -/
inductive Reachable (normalized_coords : List (ℚ × ℚ)) (w h : ℚ)
    (is_clean brush_visualizer : Bool) : ToothState → Prop where
  | init :
      Reachable normalized_coords w h is_clean brush_visualizer
        (initState normalized_coords w h is_clean brush_visualizer)
  | next (s s' : ToothState) (i : Input) (ev : List Event) :
      Reachable normalized_coords w h is_clean brush_visualizer s →
      step s i = some (s', ev) →
      Reachable normalized_coords w h is_clean brush_visualizer s'

/-- The normalized unit square used by the spec's polygon test vector. -/
def sqCoords : List (ℚ × ℚ) := [(0, 0), (1, 0), (1, 1), (0, 1)]

/-- The unit square rescaled to a 100 × 100 viewport. -/
def squarePixels : List (ℚ × ℚ) := _get_polygon_points_pixels 100 100 sqCoords

/-- Claim C7: for the square polygon with normalized vertices
`[(0,0),(1,0),(1,1),(0,1)]` rescaled to a 100 × 100 viewport, the
point-in-polygon test returns `true` for `(50, 50)` and `false` for
`(150, 50)`; for the on-boundary point `(100, 50)` it returns the one fixed
value `true` — `point_inside_polygon` is a pure function of its arguments, so
every repeated call returns this same value. -/
theorem square_contains_test_vector :
    point_inside_polygon squarePixels 50 50 = true ∧
    point_inside_polygon squarePixels 150 50 = false ∧
    point_inside_polygon squarePixels 100 50 = true := by
  refine ⟨?_, ?_, ?_⟩ <;>
    norm_num [squarePixels, sqCoords, _get_polygon_points_pixels,
      _normalized_to_pixels, point_inside_polygon, raycast, edgeToggle,
      min_def, max_def]

/-- A zero-length edge never flips `inside`: the crossing guard demands
`min < y` and `y ≤ max`, which for a degenerate edge collapse to
`p.2 < y ∧ y ≤ p.2`. -/
theorem edgeToggle_self (x y : ℚ) (v : ℚ × ℚ) : edgeToggle x y v v = false := by
  by_cases h : v.2 < y
  · by_cases h' : y ≤ v.2
    · exact absurd (lt_of_lt_of_le h h') (lt_irrefl _)
    · simp [edgeToggle, h, h']
  · simp [edgeToggle, h]

/-- Inserting a consecutive duplicate vertex into the processed edge list does
not change the ray-casting fold: the extra edge is degenerate and never
toggles. -/
theorem raycast_dup (x y : ℚ) (v : ℚ × ℚ) (L1 L2 : List (ℚ × ℚ)) :
    ∀ (p1 : ℚ × ℚ) (b : Bool),
      raycast x y p1 (L1 ++ v :: v :: L2) b = raycast x y p1 (L1 ++ v :: L2) b := by
  induction L1 with
  | nil =>
      intro p1 b
      simp [raycast, edgeToggle_self]
  | cons a rest ih =>
      intro p1 b
      simp only [List.cons_append, raycast]
      exact ih a _

/-- Claim C8: for every polygon of at least three vertices and every point,
inserting a duplicate consecutive vertex (a degenerate zero-length edge) into
the vertex list does not change the point-in-polygon result.  The insertion
site is arbitrary: the original polygon is `A ++ v :: B` and the duplicated
one `A ++ v :: v :: B`. -/
theorem point_inside_polygon_dup_vertex (A B : List (ℚ × ℚ)) (v : ℚ × ℚ)
    (x y : ℚ) (hlen : 3 ≤ (A ++ v :: B).length) :
    point_inside_polygon (A ++ v :: v :: B) x y =
      point_inside_polygon (A ++ v :: B) x y := by
  cases A with
  | nil =>
      simpa [point_inside_polygon] using
        raycast_dup x y v [] (B ++ [v]) v false
  | cons a rest =>
      simpa [point_inside_polygon, List.append_assoc] using
        raycast_dup x y v (a :: rest) (B ++ [a]) a false

/-- Witness for C8 at a concrete polygon and point: the unit square with its
second vertex duplicated, queried at the square's center. -/
theorem point_inside_polygon_dup_vertex_witness :
    point_inside_polygon [(0, 0), (1, 0), (1, 0), (1, 1), (0, 1)] (1 / 2) (1 / 2) =
      point_inside_polygon [(0, 0), (1, 0), (1, 1), (0, 1)] (1 / 2) (1 / 2) :=
  point_inside_polygon_dup_vertex [(0, 0)] [(1, 1), (0, 1)] (1, 0) (1 / 2) (1 / 2)
    (by norm_num)

/-- Concrete evaluation helper: the viewport-scaled square contains (50, 50). -/
theorem inside_square_50_50 : point_inside_polygon squarePixels 50 50 = true := by
  norm_num [squarePixels, sqCoords, _get_polygon_points_pixels,
    _normalized_to_pixels, point_inside_polygon, raycast, edgeToggle,
    min_def, max_def]

/-- Concrete evaluation helper: the viewport-scaled square contains (100, 50). -/
theorem inside_square_100_50 : point_inside_polygon squarePixels 100 50 = true := by
  norm_num [squarePixels, sqCoords, _get_polygon_points_pixels,
    _normalized_to_pixels, point_inside_polygon, raycast, edgeToggle,
    min_def, max_def]

/-- Concrete evaluation helper: (150, 50) lies outside the scaled square. -/
theorem outside_square_150_50 :
    point_inside_polygon squarePixels 150 50 = false := by
  norm_num [squarePixels, sqCoords, _get_polygon_points_pixels,
    _normalized_to_pixels, point_inside_polygon, raycast, edgeToggle,
    min_def, max_def]

/-- A dirty square tooth with cursor 1 engaged (no reset pending),
`brush_score` at 100 of the 150 quota and `last_pos` at the left edge
midpoint. -/
def engagedState : ToothState :=
  { initState sqCoords 100 100 false true with
      cursor_inside := some 1
      is_being_touched := true
      brush_score := 100
      last_pos := (0, 50) }

/-- `engagedState` after the engaged cursor lifted: a reset is pending with
deadline 10. -/
def graceState : ToothState :=
  { engagedState with pending_reset := some 10 }

/-- A grace-period state on a tooth constructed with `brush_visualizer=None`. -/
def noVizGraceState : ToothState :=
  { graceState with brush_visualizer := false }

/-- A tooth resolved mid-engagement: the external `handle_brush_stroke` set
`is_clean` once `brush_to_clean` hit 0, while cursor 1 was (and stays)
engaged. -/
def resolvedEngaged : ToothState :=
  { engagedState with is_clean := true, brush_to_clean := 0, brush_score := 0 }

/-- Claim C2: while engaged on an unresolved zone, a move of the engaged
cursor inside the polygon adds the weighted delta
`|dx| * x_weight + |dy| * y_weight` to `brush_score` and updates `last_pos`;
when the accumulated total reaches exactly the quota, the quota is subtracted
(leaving `brush_score` at 0, with no retained overflow), `brush_to_clean`
drops by exactly 1, and exactly one `on_brush_stroke` notification fires. -/
theorem engaged_move_scoring (s : ToothState) (t : Touch)
    (hclean : s.is_clean = false)
    (hcur : s.cursor_inside = some t.uid)
    (_hpend : s.pending_reset = none)
    (hin : point_inside_polygon s.points_pixels t.x t.y = true) :
    (s.brush_score +
        (|t.x - s.last_pos.1| * s.x_weight + |t.y - s.last_pos.2| * s.y_weight) <
          s.brush_quota →
      step s (Input.move t) =
        some ({ s with
                  brush_score := s.brush_score +
                    (|t.x - s.last_pos.1| * s.x_weight +
                      |t.y - s.last_pos.2| * s.y_weight)
                  last_pos := (t.x, t.y) }, [])) ∧
    (s.brush_score +
        (|t.x - s.last_pos.1| * s.x_weight + |t.y - s.last_pos.2| * s.y_weight) =
          s.brush_quota →
      step s (Input.move t) =
        some ({ s with
                  brush_score := 0
                  brush_to_clean := s.brush_to_clean - 1
                  last_pos := (t.x, t.y) }, [Event.brushStroke])) := by
  constructor
  · intro hlt
    simp [step, on_touch_move, hcur, hclean, hin, not_le.mpr hlt]
  · intro heq
    simp [step, on_touch_move, hcur, hclean, hin, heq.ge, heq]

/-- Witness for C2: from `engagedState` (score 100, quota 150), cursor 1 moves
from (0, 50) to (100, 50), a weighted delta of exactly 50 — the quota is met
exactly, the score returns to 0, one layer is cleaned, one stroke event
fires. -/
theorem engaged_move_scoring_witness :
    step engagedState (Input.move ⟨1, 100, 50⟩) =
      some ({ engagedState with
                brush_score := 0
                brush_to_clean := engagedState.brush_to_clean - 1
                last_pos := (100, 50) }, [Event.brushStroke]) :=
  (engaged_move_scoring engagedState ⟨1, 100, 50⟩ rfl rfl rfl
      inside_square_100_50).2 (by norm_num [engagedState, initState])

/-- Every call of `_start_brushing` that actually starts an engagement (fires
an event) zeroes `brush_score` first: any distance accumulated before can
never be committed afterwards. -/
theorem start_brushing_score_zero (s : ToothState) (t : Touch) (r : ToothState)
    (ev : List Event) (h : _start_brushing s t = some (r, ev)) (hne : ev ≠ []) :
    r.brush_score = 0 := by
  unfold _start_brushing at h
  split at h
  · injection h with h'
    injection h' with ha hb
    exact absurd hb.symm hne
  · split at h
    · split at h
      · injection h with h'
        injection h' with ha hb
        subst ha
        rfl
      · exact Option.noConfusion h
    · injection h with h'
      injection h' with ha hb
      subst ha
      rfl

/-- Claim C5: while engaged (no reset pending), a move of the engaged cursor
to a point outside the polygon immediately drops the engagement with no grace
period — `cursor_inside` is cleared, no deadline is scheduled, and exactly one
`on_brush_stop` notification fires in the same step.  The
accumulated-but-uncommitted distance is discarded: the source leaves the
stale `brush_score` value in the field, but every subsequent engagement start
zeroes it before any scoring, so the uncommitted distance can never be
committed — the second conjunct states the discard in that observable form. -/
theorem engaged_move_outside_drops (s : ToothState) (t : Touch)
    (hcur : s.cursor_inside = some t.uid)
    (_hpend : s.pending_reset = none)
    (hout : point_inside_polygon s.points_pixels t.x t.y = false) :
    step s (Input.move t) =
      some ({ s with cursor_inside := none
                     is_being_touched := false
                     pending_reset := none }, [Event.brushStop]) ∧
    (∀ (u : Touch) (r : ToothState) (ev : List Event),
      _start_brushing
          { s with cursor_inside := none
                   is_being_touched := false
                   pending_reset := none } u = some (r, ev) →
      ev ≠ [] → r.brush_score = 0) := by
  refine ⟨?_, ?_⟩
  · simp [step, on_touch_move, hcur, hout, _reset_state]
  · intro u r ev h hne
    exact start_brushing_score_zero _ u r ev h hne

/-- Witness for C5: from `engagedState`, cursor 1 moves to (150, 50), outside
the scaled square — the engagement is dropped at once and `on_brush_stop`
fires. -/
theorem engaged_move_outside_drops_witness :
    step engagedState (Input.move ⟨1, 150, 50⟩) =
      some ({ engagedState with cursor_inside := none
                                is_being_touched := false
                                pending_reset := none }, [Event.brushStop]) :=
  (engaged_move_outside_drops engagedState ⟨1, 150, 50⟩ rfl rfl
      outside_square_150_50).1

/-- Concrete evaluation helper: the viewport-scaled square contains (60, 50). -/
theorem inside_square_60_50 : point_inside_polygon squarePixels 60 50 = true := by
  norm_num [squarePixels, sqCoords, _get_polygon_points_pixels,
    _normalized_to_pixels, point_inside_polygon, raycast, edgeToggle,
    min_def, max_def]

/-- Claim C1, counterexample.  In the grace period (`graceState`:
`brush_score = 100`, deadline 10 pending), a recovering DOWN inside the
polygon runs `_start_brushing`, whose unconditional `self.brush_score = 0.0`
RESETS the accumulated distance — the claim says it is not reset.  And a MOVE
inside by the engaged cursor never reaches `_start_brushing` (the
`cursor_inside is None` guard fails), so it does NOT cancel the pending
deadline — the claim says a MOVE inside cancels it. -/
theorem grace_recovery_counterexample :
    graceState.brush_score = 100 ∧
    step graceState (Input.down ⟨2, 50, 50⟩) =
      some ({ graceState with
                pending_reset := none
                cursor_inside := some 2
                is_being_touched := true
                brush_score := 0
                last_pos := (50, 50) }, [Event.brushStart]) ∧
    step graceState (Input.move ⟨1, 60, 50⟩) =
      some ({ graceState with brush_score := 130, last_pos := (60, 50) }, []) ∧
    ({ graceState with
         brush_score := (130 : ℚ)
         last_pos := ((60 : ℚ), (50 : ℚ)) }).pending_reset = some 10 := by
  have hin50 : point_inside_polygon graceState.points_pixels (50 : ℚ) (50 : ℚ) = true :=
    inside_square_50_50
  refine ⟨rfl, ?_, ?_, rfl⟩
  · have hclean : graceState.is_clean = false := rfl
    have hpend : graceState.pending_reset = some 10 := rfl
    have hviz : graceState.brush_visualizer = true := rfl
    simp [step, on_touch_down, _start_brushing, hin50, hclean, hpend, hviz]
  · have hclean : graceState.is_clean = false := rfl
    have hcur : graceState.cursor_inside = some 1 := rfl
    have hin : point_inside_polygon graceState.points_pixels (60 : ℚ) (50 : ℚ) = true :=
      inside_square_60_50
    have hscore : graceState.brush_score = 100 := rfl
    have hquota : graceState.brush_quota = 150 := rfl
    have hxw : graceState.x_weight = 1 / 2 := rfl
    have hyw : graceState.y_weight = 1 / 2 := rfl
    have hlast : graceState.last_pos = (0, 50) := rfl
    norm_num [step, on_touch_move, hin, hclean, hcur, hscore, hquota, hxw, hyw,
      hlast]
    exact fun contra => absurd contra (by simp)

/-- Claim C1, amended: for an unresolved zone in the grace period with a
visualizer attached, a DOWN inside the polygon cancels the pending deadline
and re-engages with the sample's cursor id (identical or replaced), resets
`last_pos` to the new sample, RESETS `brush_score` to 0, and fires
`on_brush_start` but no engagement-ended notification; a MOVE inside by the
engaged cursor continues scoring but does not cancel the pending deadline and
fires no engagement-ended notification either. -/
theorem grace_recovery_amended (s : ToothState) (t : Touch) (d : ℚ)
    (hclean : s.is_clean = false)
    (hpend : s.pending_reset = some d)
    (hviz : s.brush_visualizer = true)
    (hin : point_inside_polygon s.points_pixels t.x t.y = true) :
    step s (Input.down t) =
      some ({ s with
                pending_reset := none
                cursor_inside := some t.uid
                is_being_touched := true
                brush_score := 0
                last_pos := (t.x, t.y) }, [Event.brushStart]) ∧
    (s.cursor_inside = some t.uid →
      ∀ (r : ToothState) (ev : List Event),
        step s (Input.move t) = some (r, ev) →
        r.pending_reset = some d ∧ Event.brushStop ∉ ev) := by
  constructor
  · simp [step, on_touch_down, _start_brushing, hclean, hpend, hviz, hin]
  · intro hcur r ev h
    simp only [step] at h
    simp [on_touch_move, hcur, hin, hclean] at h
    split at h
    · injection h with h'
      injection h' with ha hb
      subst ha
      simp [hpend, ← hb]
    · injection h with h'
      injection h' with ha hb
      subst ha
      simp [hpend, ← hb]

/-- Witness for C1 (amended), at the concrete grace state: recovery by a new
cursor id 2 at (50, 50). -/
theorem grace_recovery_amended_witness :
    step graceState (Input.down ⟨2, 50, 50⟩) =
      some ({ graceState with
                pending_reset := none
                cursor_inside := some 2
                is_being_touched := true
                brush_score := 0
                last_pos := (50, 50) }, [Event.brushStart]) :=
  (grace_recovery_amended graceState ⟨2, 50, 50⟩ 10 rfl rfl rfl
      inside_square_50_50).1

/-- Claim C6, counterexample.  In the grace period (`graceState`, cursor 1
engaged, deadline pending), a DOWN inside the polygon carrying the foreign
cursor id 2 is NOT rejected: `on_touch_down` tests `pending_reset` before
`cursor_inside`, so the event is accepted as a recovery — `cursor_inside`
changes to 2, `brush_score` resets, and `on_brush_start` fires, contradicting
"leaves every field unchanged and fires no notification". -/
theorem foreign_cursor_counterexample :
    graceState.cursor_inside = some 1 ∧ (2 : Nat) ≠ 1 ∧
    step graceState (Input.down ⟨2, 50, 50⟩) =
      some ({ graceState with
                pending_reset := none
                cursor_inside := some 2
                is_being_touched := true
                brush_score := 0
                last_pos := (50, 50) }, [Event.brushStart]) ∧
    ({ graceState with
         pending_reset := none
         cursor_inside := some 2
         is_being_touched := true
         brush_score := (0 : ℚ)
         last_pos := ((50 : ℚ), (50 : ℚ)) } ≠ graceState) := by
  have hin : point_inside_polygon graceState.points_pixels (50 : ℚ) (50 : ℚ) = true :=
    inside_square_50_50
  have hclean : graceState.is_clean = false := rfl
  have hpend : graceState.pending_reset = some 10 := rfl
  have hviz : graceState.brush_visualizer = true := rfl
  refine ⟨rfl, by decide, ?_, ?_⟩
  · simp [step, on_touch_down, _start_brushing, hin, hclean, hpend, hviz]
  · intro h
    have h2 : (some 2 : Option Nat) = some 1 := congrArg ToothState.cursor_inside h
    simp at h2

/-- Claim C6, amended: while engaged with no reset pending, any cursor event
(DOWN, MOVE or UP) carrying a foreign cursor id leaves the state unchanged and
fires no notification; in the grace period the same holds for MOVE and UP, but
a DOWN inside the polygon of an unresolved zone is accepted as a recovery and
replaces the engaged cursor id. -/
theorem foreign_cursor_amended (s : ToothState) (t : Touch) (now : ℚ) (c : Nat)
    (hcur : s.cursor_inside = some c) (hne : t.uid ≠ c) :
    (s.pending_reset = none → step s (Input.down t) = some (s, [])) ∧
    step s (Input.move t) = some (s, []) ∧
    step s (Input.up t now) = some (s, []) := by
  refine ⟨?_, ?_, ?_⟩
  · intro hpend
    by_cases hc : s.is_clean
    · simp [step, on_touch_down, hc]
    · simp [step, on_touch_down, hc, hpend, hcur]
  · simp [step, on_touch_move, hcur, Ne.symm hne]
  · simp [step, on_touch_up, hcur, hne]

/-- Witness for C6 (amended): at the concrete grace state, a MOVE by foreign
cursor 2 is a no-op. -/
theorem foreign_cursor_amended_witness :
    step graceState (Input.move ⟨2, 50, 50⟩) = some (graceState, []) :=
  (foreign_cursor_amended graceState ⟨2, 50, 50⟩ 0 1 rfl (by decide)).2.1

/-- Claim C3, counterexample.  `resolvedEngaged` is a zone whose
`brush_to_clean` reached 0 and which the external `handle_brush_stroke`
marked clean while cursor 1 was still engaged (`handle_brush_stroke` never
clears `cursor_inside`).  A subsequently submitted MOVE of that cursor to a
point outside the polygon clears the engagement and fires `on_brush_stop` —
a state change and a notification after resolution, contradicting the
claim. -/
theorem resolved_zone_counterexample :
    resolvedEngaged.is_clean = true ∧
    step resolvedEngaged (Input.move ⟨1, 150, 50⟩) =
      some ({ resolvedEngaged with
                cursor_inside := none
                is_being_touched := false
                pending_reset := none }, [Event.brushStop]) ∧
    ({ resolvedEngaged with
         cursor_inside := none
         is_being_touched := false
         pending_reset := none } ≠ resolvedEngaged) := by
  have hout : point_inside_polygon resolvedEngaged.points_pixels (150 : ℚ) (50 : ℚ) = false :=
    outside_square_150_50
  have hcur : resolvedEngaged.cursor_inside = some 1 := rfl
  refine ⟨rfl, ?_, ?_⟩
  · simp [step, on_touch_move, hcur, hout, _reset_state]
  · intro h
    have h2 : (none : Option Nat) = some 1 := congrArg ToothState.cursor_inside h
    simp at h2

/-- Claim C3, amended: once a zone is resolved (`is_clean` true) it never
re-engages and accrues no further progress — every DOWN is a no-op with no
notification, as is every MOVE while no cursor is engaged; however a cursor
that was still engaged at the moment of resolution keeps updating `last_pos`
while it moves inside, its exit still resets the engagement and fires
`on_brush_stop`, and its lift still schedules the grace reset. -/
theorem resolved_zone_amended (s : ToothState) (t : Touch) (now : ℚ)
    (hclean : s.is_clean = true) :
    step s (Input.down t) = some (s, []) ∧
    (s.cursor_inside = none → step s (Input.move t) = some (s, [])) ∧
    (s.cursor_inside = some t.uid →
      point_inside_polygon s.points_pixels t.x t.y = true →
      step s (Input.move t) = some ({ s with last_pos := (t.x, t.y) }, [])) ∧
    (s.cursor_inside = some t.uid →
      point_inside_polygon s.points_pixels t.x t.y = false →
      step s (Input.move t) =
        some ({ s with cursor_inside := none
                       is_being_touched := false
                       pending_reset := none }, [Event.brushStop])) ∧
    (s.cursor_inside = some t.uid →
      step s (Input.up t now) =
        some ({ s with pending_reset := some (now + s.grace_period) }, [])) := by
  refine ⟨?_, ?_, ?_, ?_, ?_⟩
  · simp [step, on_touch_down, hclean]
  · intro hcur0
    by_cases hi : point_inside_polygon s.points_pixels t.x t.y
    · simp [step, on_touch_move, hcur0, hi, _start_brushing, hclean]
    · simp [step, on_touch_move, hcur0, hi]
  · intro hcur hi
    simp [step, on_touch_move, hcur, hi, hclean]
  · intro hcur hi
    simp [step, on_touch_move, hcur, hi, _reset_state]
  · intro hcur
    simp [step, on_touch_up, hcur]

/-- Witness for C3 (amended): at the concrete resolved zone, a DOWN inside by
a new cursor 9 is a silent no-op. -/
theorem resolved_zone_amended_witness :
    step resolvedEngaged (Input.down ⟨9, 50, 50⟩) = some (resolvedEngaged, []) :=
  (resolved_zone_amended resolvedEngaged ⟨9, 50, 50⟩ 0 rfl).1

/-- Claim C4: after an UP of the engaged cursor (which schedules the reset at
`now + grace_period` and fires nothing), the first `tick` at or past the
deadline fires exactly one `on_brush_stop` and clears `pending_reset` — the
field `tick` checks before invoking the reset that clears it — and any later
`tick` fires nothing further. -/
theorem grace_expiry_idempotent (s : ToothState) (t : Touch) (t0 n1 n2 : ℚ)
    (hcur : s.cursor_inside = some t.uid)
    (h1 : t0 + s.grace_period ≤ n1) (_h12 : n1 ≤ n2) :
    ∃ s1 s2 : ToothState,
      step s (Input.up t t0) = some (s1, []) ∧
      s1.pending_reset = some (t0 + s.grace_period) ∧
      tick s1 n1 = (s2, [Event.brushStop]) ∧
      s2.pending_reset = none ∧
      tick s2 n2 = (s2, []) := by
  refine ⟨{ s with pending_reset := some (t0 + s.grace_period) },
    { s with pending_reset := none
             cursor_inside := none
             is_being_touched := false }, ?_, rfl, ?_, rfl, ?_⟩
  · simp [step, on_touch_up, hcur]
  · simp [tick, h1, _reset_state]
  · simp [tick]

/-- Witness for C4: cursor 1 lifts from `engagedState` at time 0; the ticks at
times 1 and 2 expire the grace period exactly once. -/
theorem grace_expiry_idempotent_witness :
    ∃ s1 s2 : ToothState,
      step engagedState (Input.up ⟨1, 0, 50⟩ 0) = some (s1, []) ∧
      s1.pending_reset = some (0 + engagedState.grace_period) ∧
      tick s1 1 = (s2, [Event.brushStop]) ∧
      s2.pending_reset = none ∧
      tick s2 2 = (s2, []) :=
  grace_expiry_idempotent engagedState ⟨1, 0, 50⟩ 0 1 2 rfl
    (by norm_num [engagedState, initState]) (by norm_num)

/-- Claim C10: on a zone constructed with `brush_visualizer=None`, a
grace-period recovery on an unresolved zone raises instead of completing:
the recovery branch of `_start_brushing` runs
`self.brush_visualizer.remove_brush(self.cursor_inside)` without the
`if self.brush_visualizer:` guard that `on_touch_move`, the later
`draw_brush` call and `_reset_state` all use, so the attribute access on
`None` raises `AttributeError` — embedded as the `none` result, reached both
through `_start_brushing` directly and through a DOWN inside the polygon. -/
theorem no_visualizer_recovery_raises (s : ToothState) (t : Touch) (d : ℚ)
    (hviz : s.brush_visualizer = false)
    (hclean : s.is_clean = false)
    (hpend : s.pending_reset = some d)
    (hin : point_inside_polygon s.points_pixels t.x t.y = true) :
    _start_brushing s t = none ∧ step s (Input.down t) = none := by
  have hsb : _start_brushing s t = none := by
    simp [_start_brushing, hclean, hpend, hviz]
  exact ⟨hsb, by simp [step, on_touch_down, hin, hclean, hpend, hsb]⟩

/-- Witness for C10: the concrete grace state with no visualizer; the
recovering DOWN at (50, 50) raises. -/
theorem no_visualizer_recovery_raises_witness :
    step noVizGraceState (Input.down ⟨2, 50, 50⟩) = none :=
  (no_visualizer_recovery_raises noVizGraceState ⟨2, 50, 50⟩ 10 rfl rfl rfl
      inside_square_50_50).2

/-- `_start_brushing` preserves the cursor/engagement link: it either leaves
the state alone (clean tooth) or records a cursor and sets
`is_being_touched`. -/
theorem start_brushing_link (s : ToothState) (t : Touch) (r : ToothState)
    (ev : List Event) (h : _start_brushing s t = some (r, ev))
    (ih : s.cursor_inside.isSome = s.is_being_touched) :
    r.cursor_inside.isSome = r.is_being_touched := by
  unfold _start_brushing at h
  split at h
  · injection h with h'
    injection h' with ha hb
    subst ha
    exact ih
  · split at h
    · split at h
      · injection h with h'
        injection h' with ha hb
        subst ha
        rfl
      · exact Option.noConfusion h
    · injection h with h'
      injection h' with ha hb
      subst ha
      rfl

/-- Every handler of the source preserves the cursor/engagement link:
`cursor_inside` and `is_being_touched` are only ever written together, by
`_start_brushing` (to `some uid` / `True`) and `_reset_state`
(to `None` / `False`). -/
theorem step_preserves_link (s s' : ToothState) (i : Input) (ev : List Event)
    (h : step s i = some (s', ev))
    (ih : s.cursor_inside.isSome = s.is_being_touched) :
    s'.cursor_inside.isSome = s'.is_being_touched := by
  cases i with
  | down t =>
      simp only [step, on_touch_down] at h
      split at h
      · split at h
        · injection h with h'
          injection h' with ha hb
          subst ha
          exact ih
        · split at h
          · exact start_brushing_link s t s' ev h ih
          · split at h
            · exact start_brushing_link s t s' ev h ih
            · injection h with h'
              injection h' with ha hb
              subst ha
              exact ih
      · injection h with h'
        injection h' with ha hb
        subst ha
        exact ih
  | move t =>
      simp only [step, on_touch_move] at h
      split at h
      · exact start_brushing_link s t s' ev h ih
      · split at h
        · split at h
          · split at h
            · injection h with h'
              injection h' with ha hb
              subst ha
              exact ih
            · split at h
              · injection h with h'
                injection h' with ha hb
                subst ha
                exact ih
              · injection h with h'
                injection h' with ha hb
                subst ha
                exact ih
          · simp only [_reset_state] at h
            injection h with h'
            injection h' with ha hb
            subst ha
            rfl
        · injection h with h'
          injection h' with ha hb
          subst ha
          exact ih
  | up t now =>
      simp only [step, on_touch_up] at h
      split at h
      · injection h with h'
        injection h' with ha hb
        subst ha
        exact ih
      · injection h with h'
        injection h' with ha hb
        subst ha
        exact ih
  | clock now =>
      simp only [step, tick] at h
      split at h
      · split at h
        · simp only [_reset_state] at h
          injection h with h'
          injection h' with ha hb
          subst ha
          rfl
        · injection h with h'
          injection h' with ha hb
          subst ha
          exact ih
      · injection h with h'
        injection h' with ha hb
        subst ha
        exact ih
  | resolve =>
      simp only [step, resolve_if_done] at h
      split at h
      · injection h with h'
        injection h' with ha hb
        subst ha
        exact ih
      · injection h with h'
        injection h' with ha hb
        subst ha
        exact ih

/-- Claim C9: in every reachable state of a zone — starting from the
constructor's state, where both are cleared, and closed under every touch
event, clock tick and external resolution — `cursor_inside` is non-`None`
exactly when `is_being_touched` holds (the source's flag for the
engaged-or-grace-period logical states). -/
theorem engaged_iff_touched (normalized_coords : List (ℚ × ℚ)) (W H : ℚ)
    (c v : Bool) (s : ToothState)
    (hr : Reachable normalized_coords W H c v s) :
    s.cursor_inside.isSome = s.is_being_touched := by
  induction hr with
  | init => rfl
  | next s s' i ev _ hstep ih => exact step_preserves_link s s' i ev hstep ih

/-- Witness for C9: the freshly constructed square zone is reachable and
satisfies the link (both fields cleared). -/
theorem engaged_iff_touched_witness :
    (initState sqCoords 100 100 false true).cursor_inside.isSome =
      (initState sqCoords 100 100 false true).is_being_touched :=
  engaged_iff_touched sqCoords 100 100 false true
    (initState sqCoords 100 100 false true) Reachable.init

end CepilloParty
